import Mathlib

/-!
Shallow embedding of the OneDrive client module (src/onedrive.py).

The Graph SDK transport is modelled as a record of response functions
(`GraphTransport`); every client operation additionally returns the list of
requests it issued (`GraphRequest`), mirroring the calls the Python code
makes on `self._client`.  Raised Python exceptions are modelled with
`Except Err`; the three exception classes used by the module
(`FileNotFoundError`, `RuntimeError`, `ValueError`) are the constructors of
`Err`.  Python truthiness of the `x or y` idiom on strings and lists is
modelled explicitly by `pyOrStr` and `pyOrList`.
-/

namespace OneDrive

/-- Python `x or d` on an optional string: `None` and the empty string are
falsy, any other string is returned unchanged. -/
def pyOrStr (o : Option String) (d : String) : String :=
  match o with
  | none => d
  | some s => if s = "" then d else s

/-- Python `x or d` on an optional list: `None` and the empty list are falsy. -/
def pyOrList (o : Option (List String)) (d : List String) : List String :=
  match o with
  | none => d
  | some l => if l = [] then d else l

/-- The `file` facet sub-object of a Graph `DriveItem` (`item.file`). -/
structure FileFacet where
  mime_type : Option String := none
deriving DecidableEq

/-- A raw Graph SDK `DriveItem` record: every field optional, plus the
vendor `additional_data` side-channel (modelled as a key-value list). -/
structure DriveItem where
  id : Option String := none
  name : Option String := none
  size : Option Nat := none
  file : Option FileFacet := none
  folder : Option Unit := none
  created_date_time : Option Nat := none
  last_modified_date_time : Option Nat := none
  web_url : Option String := none
  additional_data : List (String × String) := []
deriving DecidableEq

/-- A raw Graph site record (only the field the client reads). -/
structure SiteRecord where
  id : Option String := none
deriving DecidableEq

/-- A raw Graph drive record (only the field the client reads). -/
structure DriveRecord where
  id : Option String := none
deriving DecidableEq

/-- The Graph children-collection response: `result.value` may be absent. -/
structure ChildrenResponse where
  value : Option (List DriveItem) := none
deriving DecidableEq

/-- The normalized domain model `DriveItemInfo` (frozen dataclass). -/
structure DriveItemInfo where
  id : String
  name : String
  size : Option Nat := none
  mime_type : Option String := none
  is_folder : Bool := false
  created_at : Option Nat := none
  modified_at : Option Nat := none
  web_url : Option String := none
  download_url : Option String := none
deriving DecidableEq

/-- Derived property `DriveItemInfo.is_file`: `not self.is_folder`. -/
def DriveItemInfo.is_file (d : DriveItemInfo) : Bool :=
  !d.is_folder

/-- Dictionary `get` on the `additional_data` side-channel. -/
def adLookup (ad : List (String × String)) (k : String) : Option String :=
  (ad.find? (fun e => e.1 == k)).map (fun e => e.2)

/-- The fixed versioned key of the ephemeral download URL. -/
def downloadUrlKey : String :=
  "@microsoft.graph.downloadUrl"

/-- The fixed key of the conflict-behavior instruction. -/
def conflictBehaviorKey : String :=
  "@microsoft.graph.conflictBehavior"

/-- The normalizer `_to_drive_item_info`, field for field from the source. -/
def toDriveItemInfo (item : DriveItem) : DriveItemInfo :=
  { id := pyOrStr item.id ("")
    name := pyOrStr item.name ("")
    size := item.size
    mime_type := match item.file with
      | some f => f.mime_type
      | none => none
    is_folder := item.folder.isSome
    created_at := item.created_date_time
    modified_at := item.last_modified_date_time
    web_url := item.web_url
    download_url := adLookup item.additional_data downloadUrlKey }

/-- The exception classes of the module. -/
inductive Err where
  | fileNotFound (msg : String)
  | runtimeError (msg : String)
  | valueError (msg : String)
deriving DecidableEq

/-- A request issued on the Graph transport, one constructor per distinct
call shape the client module makes. -/
inductive GraphRequest where
  | getItemReq (driveId itemId : String)
  | listChildrenReq (driveId itemId : String)
  | getContentReq (driveId itemId : String)
  | putContentReq (driveId itemId : String) (content : List Nat)
  | postChildrenReq (driveId parentId : String) (body : DriveItem)
  | getSiteReq (siteId : String)
  | getSiteDriveReq (siteId : String)
  | deleteReq (driveId itemId : String)
deriving DecidableEq

/-- Conflict-behavior instruction carried by a request: only a children POST
carries a body that can hold one; a raw content PUT has no body at all. -/
def requestConflictBehavior : GraphRequest → Option String
  | GraphRequest.postChildrenReq _ _ body => adLookup body.additional_data conflictBehaviorKey
  | _ => none

/-- The transport: responses of the remote service, one function per call
shape.  Transport-level exceptions are out of scope (they propagate
verbatim in the source), so each response is a plain optional value. -/
structure GraphTransport where
  getItem : String → String → Option DriveItem
  getChildren : String → String → Option ChildrenResponse
  getContent : String → String → Option (List Nat)
  putContent : String → String → List Nat → Option DriveItem
  postChildren : String → String → DriveItem → Option DriveItem
  getSite : String → Option SiteRecord
  getDriveOfSite : String → Option DriveRecord

/-- Local filesystem state: the set of existing directories and the files
written, paths as component lists. -/
structure FS where
  dirs : List (List String)
  files : List (List String × List Nat)
deriving DecidableEq

/-- Python `Path.is_dir()`. -/
def FS.isDir (fs : FS) (p : List String) : Bool :=
  decide (p ∈ fs.dirs)

/-- Every prefix of a path, the empty path and the path itself included. -/
def pathAncestors (p : List String) : List (List String) :=
  (List.range (p.length + 1)).map (fun i => p.take i)

/-- Python `dir.mkdir(parents=True, exist_ok=True)`: the directory and all
its ancestors come to exist. -/
def FS.mkdirParents (fs : FS) (dir : List String) : FS :=
  { fs with dirs := pathAncestors dir ++ fs.dirs }

/-- Python `path.write_bytes(content)`. -/
def FS.writeFile (fs : FS) (p : List String) (c : List Nat) : FS :=
  { fs with files := (p, c) :: fs.files }

/-- Content of the file at a path, if one was written. -/
def FS.readFile (fs : FS) (p : List String) : Option (List Nat) :=
  (fs.files.find? (fun e => e.1 == p)).map (fun e => e.2)

/-- Embedding of `list_items`: list immediate children of a folder; a missing response or
missing `value` degrades to the empty list. -/
def OneDriveClient.list_items (T : GraphTransport) (drive_id folder_id : String) :
    List GraphRequest × List DriveItemInfo :=
  let reqs := [GraphRequest.listChildrenReq drive_id folder_id]
  match T.getChildren drive_id folder_id with
  | none => (reqs, [])
  | some result =>
    match result.value with
    | none => (reqs, [])
    | some items => (reqs, items.map toDriveItemInfo)

/-- Embedding of `list_items_by_path`: resolve the folder at `root:/<path>:` first, raise
`FileNotFoundError` naming the path when the fetch returns nothing, then
list children by the resolved identifier (`folder_item.id or "root"`). -/
def OneDriveClient.list_items_by_path (T : GraphTransport) (drive_id path : String) :
    List GraphRequest × Except Err (List DriveItemInfo) :=
  let addr := ("root:/" ++ path ++ ":")
  match T.getItem drive_id addr with
  | none =>
    ([GraphRequest.getItemReq drive_id addr],
      Except.error (Err.fileNotFound ("Folder not found at path: " ++ path)))
  | some folder_item =>
    let res := OneDriveClient.list_items T drive_id (pyOrStr folder_item.id ("root"))
    (GraphRequest.getItemReq drive_id addr :: res.1, Except.ok res.2)

/-- Embedding of `get_item`: metadata of a single item, `FileNotFoundError` naming the
item id when the fetch returns nothing. -/
def OneDriveClient.get_item (T : GraphTransport) (drive_id item_id : String) :
    List GraphRequest × Except Err DriveItemInfo :=
  let reqs := [GraphRequest.getItemReq drive_id item_id]
  match T.getItem drive_id item_id with
  | none => (reqs, Except.error (Err.fileNotFound ("Item not found: " ++ item_id)))
  | some item => (reqs, Except.ok (toDriveItemInfo item))

/-- Embedding of `download_file`: if the destination is an existing directory the remote
name (from `get_item`) is appended, otherwise the destination is used
verbatim; a missing content response raises `FileNotFoundError`; the parent
directory chain is created and the content written; the written path is
returned. -/
def OneDriveClient.download_file (T : GraphTransport) (fs : FS)
    (drive_id item_id : String) (destination : List String) :
    List GraphRequest × Except Err (List String × FS) :=
  let resolved : List GraphRequest × Except Err (List String) :=
    if fs.isDir destination then
      match OneDriveClient.get_item T drive_id item_id with
      | (reqs, Except.error e) => (reqs, Except.error e)
      | (reqs, Except.ok meta) => (reqs, Except.ok (destination ++ [meta.name]))
    else ([], Except.ok destination)
  match resolved with
  | (reqs, Except.error e) => (reqs, Except.error e)
  | (reqs, Except.ok dest) =>
    match T.getContent drive_id item_id with
    | none =>
      (reqs ++ [GraphRequest.getContentReq drive_id item_id],
        Except.error (Err.fileNotFound ("No content returned for item " ++ item_id)))
    | some content =>
      (reqs ++ [GraphRequest.getContentReq drive_id item_id],
        Except.ok (dest, (fs.mkdirParents dest.dropLast).writeFile dest content))

/-- Embedding of `upload_file`: PUT raw bytes at `{parent_folder_id}:/{filename}:`;
`RuntimeError` when no metadata comes back, otherwise the normalized
metadata of the result. -/
def OneDriveClient.upload_file (T : GraphTransport)
    (drive_id parent_folder_id filename : String) (content : List Nat) :
    List GraphRequest × Except Err DriveItemInfo :=
  let addr := (parent_folder_id ++ ":/" ++ filename ++ ":")
  let reqs := [GraphRequest.putContentReq drive_id addr content]
  match T.putContent drive_id addr content with
  | none => (reqs, Except.error (Err.runtimeError ("Upload returned no metadata for " ++ filename)))
  | some result => (reqs, Except.ok (toDriveItemInfo result))

/-- Embedding of `upload_file_by_path`: PUT raw bytes at `root:/{remote_path}:`. -/
def OneDriveClient.upload_file_by_path (T : GraphTransport)
    (drive_id remote_path : String) (content : List Nat) :
    List GraphRequest × Except Err DriveItemInfo :=
  let addr := ("root:/" ++ remote_path ++ ":")
  let reqs := [GraphRequest.putContentReq drive_id addr content]
  match T.putContent drive_id addr content with
  | none => (reqs, Except.error (Err.runtimeError ("Upload returned no metadata for " ++ remote_path)))
  | some result => (reqs, Except.ok (toDriveItemInfo result))

/-- The `DriveItem` body `create_folder` constructs: the requested name,
the folder facet, and the conflict-behavior side-channel entry fixed to
rename. -/
def newFolderBody (folder_name : String) : DriveItem :=
  { id := none, name := some folder_name, size := none, file := none,
    folder := some (), created_date_time := none, last_modified_date_time := none,
    web_url := none, additional_data := [(conflictBehaviorKey, "rename")] }

/-- Embedding of `create_folder`: POST the new-folder body under the parent folder. -/
def OneDriveClient.create_folder (T : GraphTransport)
    (drive_id parent_folder_id folder_name : String) :
    List GraphRequest × Except Err DriveItemInfo :=
  let new_folder : DriveItem := newFolderBody folder_name
  let reqs := [GraphRequest.postChildrenReq drive_id parent_folder_id new_folder]
  match T.postChildren drive_id parent_folder_id new_folder with
  | none => (reqs, Except.error (Err.runtimeError ("Folder creation returned no metadata for " ++ folder_name)))
  | some result => (reqs, Except.ok (toDriveItemInfo result))

/-- Embedding of `get_site_drive_id`: look the site up by `hostname:site_path`; not-found
when the site response is missing; then fetch the default drive of
`site.id or ""`; not-found when that response is missing; otherwise return
`drive.id or ""`. -/
def OneDriveClient.get_site_drive_id (T : GraphTransport)
    (hostname site_path : String) :
    List GraphRequest × Except Err String :=
  let siteAddr := (hostname ++ ":" ++ site_path)
  match T.getSite siteAddr with
  | none =>
    ([GraphRequest.getSiteReq siteAddr],
      Except.error (Err.fileNotFound ("Site not found: " ++ hostname ++ ":" ++ site_path)))
  | some site =>
    let resolvedSiteId := pyOrStr site.id ("")
    let reqs := [GraphRequest.getSiteReq siteAddr, GraphRequest.getSiteDriveReq resolvedSiteId]
    match T.getDriveOfSite resolvedSiteId with
    | none =>
      (reqs, Except.error (Err.fileNotFound
        ("Default drive not found for site " ++ hostname ++ ":" ++ site_path)))
    | some drive => (reqs, Except.ok (pyOrStr drive.id ("")))

/-- An abstract credential value; `DefaultAzureCredential()` is one of them. -/
inductive Credential where
  | defaultAzure
  | custom (tag : Nat)
deriving DecidableEq

/-- Embedding of `DefaultAzureCredential()`. -/
def mkDefaultAzureCredential : Credential :=
  Credential.defaultAzure

/-- Embedding of the module constant `_DEFAULT_SCOPES`. -/
def DEFAULT_SCOPES : List String :=
  ["https://graph.microsoft.com/.default"]

/-- What the constructed client stores in `self._client`: either the
caller-provided transport, or a `GraphServiceClient` freshly built from a
credential and scopes. -/
inductive StoredClient where
  | provided (g : GraphTransport)
  | constructed (credential : Credential) (scopes : List String)

/-- Embedding of `OneDriveClient.__init__`: a provided `graph_client` wins; else a
credential builds a `GraphServiceClient` with `scopes or _DEFAULT_SCOPES`;
else `ValueError` at construction time. -/
def OneDriveClient.init (credential : Option Credential)
    (scopes : Option (List String)) (graph_client : Option GraphTransport) :
    Except Err StoredClient :=
  match graph_client with
  | some g => Except.ok (StoredClient.provided g)
  | none =>
    match credential with
    | some c => Except.ok (StoredClient.constructed c (pyOrList scopes DEFAULT_SCOPES))
    | none => Except.error (Err.valueError ("Either credential or graph_client must be provided."))

/-- The body of `get_onedrive_client` when the cache misses:
`OneDriveClient(credential=DefaultAzureCredential())`. -/
def getOnedriveClientConstruct : Except Err StoredClient :=
  OneDriveClient.init (some mkDefaultAzureCredential) none none

/-- The `lru_cache` state of the factory, with a counter of how many times
construction actually ran. -/
structure LruState where
  cache : Option StoredClient
  constructions : Nat

/-- Embedding of `get_onedrive_client` under `@lru_cache` (zero arguments): a cache hit
returns the memoized instance untouched; a miss runs the body and memoizes
a successful result (exceptions are not cached). -/
def get_onedrive_client (s : LruState) : Except Err StoredClient × LruState :=
  match s.cache with
  | some c => (Except.ok c, s)
  | none =>
    match getOnedriveClientConstruct with
    | Except.ok c => (Except.ok c, ⟨some c, s.constructions + 1⟩)
    | Except.error e => (Except.error e, { s with constructions := s.constructions + 1 })

/-- The factory cache at process start: empty, nothing constructed. -/
def lruStart : LruState :=
  ⟨none, 0⟩

/-- The cache state after `n` calls to `get_onedrive_client` from process
start. -/
def clientStateAfter : Nat → LruState
  | 0 => lruStart
  | n + 1 => (get_onedrive_client (clientStateAfter n)).2

/-- The value returned by call number `n + 1` to `get_onedrive_client`. -/
def clientCallResult (n : Nat) : Except Err StoredClient :=
  (get_onedrive_client (clientStateAfter n)).1

/-- Fixture: the resolved folder record for path `Docs`. -/
def docsFolderItem : DriveItem :=
  { id := some ("F7"), name := some ("Docs"), folder := some () }

/-- Fixture: a resolved folder record carrying no identifier. -/
def noIdFolderItem : DriveItem :=
  { id := none, name := some ("Weird"), folder := some () }

/-- Fixture: a child of the `Docs` folder. -/
def childItemA : DriveItem :=
  { id := some ("A1"), name := some ("a.txt"), size := some 3,
    file := some { mime_type := some ("text/plain") } }

/-- Fixture: a child of the drive root. -/
def rootChildItem : DriveItem :=
  { id := some ("R1"), name := some ("readme.md") }

/-- Fixture: the remote file `X`, named `report.pdf`. -/
def reportItem : DriveItem :=
  { id := some ("X"), name := some ("report.pdf"),
    file := some { mime_type := some ("application/pdf") } }

/-- Fixture: the metadata the service returns for an upload (service chose a
deconflicted name). -/
def uploadedItem : DriveItem :=
  { id := some ("U1"), name := some ("a 1.txt"), size := some 2,
    file := some { mime_type := some ("text/plain") } }

/-- Fixture transport: drive `D1` holds folder `Docs` (id `F7`), a no-id
folder at path `Weird`, an item `X` with content, sites `S1` (with default
drive `DR1`) and `S2` (drive lookup fails). -/
def sampleT : GraphTransport :=
  { getItem := fun d i =>
      if d == "D1" && i == "root:/Docs:" then some docsFolderItem
      else if d == "D1" && i == "root:/Weird:" then some noIdFolderItem
      else if d == "D1" && i == "X" then some reportItem
      else if d == "D1" && i == "Y" then some reportItem
      else none
    getChildren := fun d i =>
      if d == "D1" && i == "F7" then some { value := some [childItemA] }
      else if d == "D1" && i == "root" then some { value := some [rootChildItem] }
      else none
    getContent := fun d i =>
      if d == "D1" && i == "X" then some [104, 105] else none
    putContent := fun d _ _ =>
      if d == "D1" then some uploadedItem else none
    postChildren := fun d _ body =>
      if d == "D1" then some { body with id := some ("NF1") } else none
    getSite := fun s =>
      if s == "contoso.sharepoint.com:/sites/team" then some { id := some ("S1") }
      else if s == "h2:/sites/x" then some { id := some ("S2") }
      else none
    getDriveOfSite := fun s =>
      if s == "S1" then some { id := some ("DR1") } else none }

/-- Fixture filesystem: `tmp` and `tmp/out` exist as directories, no file
written yet. -/
def sampleFS : FS :=
  ⟨[["tmp"], ["tmp", "out"]], []⟩

/-- Every `take` of a path is among its ancestors. -/
theorem take_mem_pathAncestors (p : List String) (k : Nat) :
    p.take k ∈ pathAncestors p := by
  by_cases hk : k ≤ p.length
  · exact List.mem_map.mpr ⟨k, List.mem_range.mpr (Nat.lt_succ_of_le hk), rfl⟩
  · have h1 : p.take k = p := List.take_of_length_le (Nat.le_of_lt (Nat.lt_of_not_le hk))
    rw [h1]
    exact List.mem_map.mpr ⟨p.length, List.mem_range.mpr (Nat.lt_succ_self _), by simp⟩

/-- Writing a file does not change which directories exist. -/
theorem isDir_writeFile (fs : FS) (q : List String) (c : List Nat) (p : List String) :
    (fs.writeFile q c).isDir p = fs.isDir p :=
  rfl

/-- After `mkdirParents dir`, every prefix of `dir` exists. -/
theorem isDir_mkdirParents (fs : FS) (dir : List String) (k : Nat) :
    (fs.mkdirParents dir).isDir (dir.take k) = true := by
  unfold FS.mkdirParents FS.isDir
  exact decide_eq_true (List.mem_append_left _ (take_mem_pathAncestors dir k))

/-- Reading back a freshly written file yields the written content. -/
theorem readFile_writeFile (fs : FS) (p : List String) (c : List Nat) :
    (fs.writeFile p c).readFile p = some c := by
  unfold FS.writeFile FS.readFile
  simp [List.find?]

/-- C5: normalization (`_to_drive_item_info`) never fails and never
fabricates — a missing identifier or name becomes the empty string, a
missing size stays unknown (never 0) and size is passed through untouched,
the MIME type is read only from a present `file` facet, the folder flag is
the presence of the `folder` facet, timestamps and web URL pass through,
and the download URL is exactly the side-channel entry under the fixed
versioned key (absent entry means unknown). -/
theorem toDriveItemInfo_never_fabricates (it : DriveItem) :
    (toDriveItemInfo { it with id := none }).id = "" ∧
    (toDriveItemInfo { it with name := none }).name = "" ∧
    (toDriveItemInfo { it with size := none }).size = none ∧
    (toDriveItemInfo it).size = it.size ∧
    (toDriveItemInfo { it with file := none }).mime_type = none ∧
    (∀ f : FileFacet, (toDriveItemInfo { it with file := some f }).mime_type = f.mime_type) ∧
    (toDriveItemInfo it).is_folder = it.folder.isSome ∧
    (toDriveItemInfo { it with created_date_time := none }).created_at = none ∧
    (toDriveItemInfo { it with last_modified_date_time := none }).modified_at = none ∧
    (toDriveItemInfo { it with web_url := none }).web_url = none ∧
    (toDriveItemInfo it).download_url = adLookup it.additional_data downloadUrlKey ∧
    adLookup [] downloadUrlKey = none :=
  ⟨rfl, rfl, rfl, rfl, rfl, fun _ => rfl, rfl, rfl, rfl, rfl, rfl, rfl⟩

/-- C8: for every normalized value the derived is-file property and the
is-folder flag are complementary. -/
theorem is_file_is_folder_complementary (d : DriveItemInfo) (it : DriveItem) :
    (d.is_file = !d.is_folder) ∧
    (d.is_file = true ↔ ¬ (d.is_folder = true)) ∧
    ((toDriveItemInfo it).is_file = true ↔ ¬ ((toDriveItemInfo it).is_folder = true)) := by
  refine ⟨rfl, ?_, ?_⟩ <;> simp [DriveItemInfo.is_file]

/-- C9: constructing the client with neither a credential nor a pre-built
transport raises `ValueError` immediately; supplying either one (the
pre-built transport winning) succeeds. -/
theorem init_requires_credential_or_client :
    (∀ s, OneDriveClient.init none s none =
      Except.error (Err.valueError ("Either credential or graph_client must be provided."))) ∧
    (∀ c s, OneDriveClient.init (some c) s none =
      Except.ok (StoredClient.constructed c (pyOrList s DEFAULT_SCOPES))) ∧
    (∀ c s g, OneDriveClient.init c s (some g) = Except.ok (StoredClient.provided g)) :=
  ⟨fun _ => rfl, fun _ _ => rfl, fun _ _ _ => rfl⟩

/-- The factory cache is stable from the first call on. -/
theorem clientStateAfter_succ (n : Nat) :
    clientStateAfter (n + 1) =
      ⟨some (StoredClient.constructed mkDefaultAzureCredential DEFAULT_SCOPES), 1⟩ := by
  induction n with
  | zero => rfl
  | succ m ih =>
    show (get_onedrive_client (clientStateAfter (m + 1))).2 = _
    rw [ih]
    rfl

/-- C10: within one process every factory call after the first returns the
identical instance as the first call, and construction has run exactly once
after any positive number of calls. -/
theorem get_onedrive_client_singleton (n : Nat) :
    clientCallResult n = clientCallResult 0 ∧
    (clientStateAfter (n + 1)).constructions = 1 := by
  constructor
  · cases n with
    | zero => rfl
    | succ m =>
      show (get_onedrive_client (clientStateAfter (m + 1))).1 = _
      rw [clientStateAfter_succ m]
      rfl
  · rw [clientStateAfter_succ n]

/-- C3: when the resolution fetch at the bracketed address returns nothing,
`list_items_by_path` raises a not-found error whose message names the exact
offending path, and the request sent to the transport for resolution is
exactly `root:/<path>:` (stated for the success case too via the first
issued request). -/
theorem list_items_by_path_not_found (T : GraphTransport) (d p : String) :
    ((OneDriveClient.list_items_by_path T d p).1.head? =
      some (GraphRequest.getItemReq d ("root:/" ++ p ++ ":"))) ∧
    (T.getItem d ("root:/" ++ p ++ ":") = none →
      OneDriveClient.list_items_by_path T d p =
        ([GraphRequest.getItemReq d ("root:/" ++ p ++ ":")],
          Except.error (Err.fileNotFound ("Folder not found at path: " ++ p)))) := by
  constructor
  · cases h : T.getItem d ("root:/" ++ p ++ ":") <;>
      simp [OneDriveClient.list_items_by_path, h]
  · intro h
    simp [OneDriveClient.list_items_by_path, h]

/-- Witness for C3 on the fixture transport at a missing path. -/
theorem list_items_by_path_not_found_witness :
    sampleT.getItem ("D1") ("root:/" ++ "Missing" ++ ":") = none ∧
    OneDriveClient.list_items_by_path sampleT ("D1") ("Missing") =
      ([GraphRequest.getItemReq ("D1") ("root:/" ++ "Missing" ++ ":")],
        Except.error (Err.fileNotFound ("Folder not found at path: " ++ "Missing"))) :=
  ⟨by decide, (list_items_by_path_not_found sampleT ("D1") ("Missing")).2 (by decide)⟩

/-- C2: when the resolution fetch returns an item with a non-empty
identifier, `list_items_by_path` returns exactly the sequence `list_items`
returns for that identifier, and its request trace is the resolution fetch
followed by the trace of the identifier-addressed listing. -/
theorem list_items_by_path_agrees_with_list_items (T : GraphTransport)
    (d p fid : String) (it : DriveItem)
    (h1 : T.getItem d ("root:/" ++ p ++ ":") = some it)
    (h2 : it.id = some fid) (h3 : ¬ fid = "") :
    (OneDriveClient.list_items_by_path T d p).2 =
      Except.ok (OneDriveClient.list_items T d fid).2 ∧
    (OneDriveClient.list_items_by_path T d p).1 =
      GraphRequest.getItemReq d ("root:/" ++ p ++ ":") ::
        (OneDriveClient.list_items T d fid).1 := by
  have hres : pyOrStr it.id ("root") = fid := by
    rw [h2]
    simp [pyOrStr, h3]
  constructor <;> simp [OneDriveClient.list_items_by_path, h1, hres]

/-- Witness for C2 on the fixture transport: listing path `Docs` agrees
with listing its resolved identifier `F7`. -/
theorem list_items_by_path_agrees_with_list_items_witness :
    sampleT.getItem ("D1") ("root:/" ++ "Docs" ++ ":") = some docsFolderItem ∧
    docsFolderItem.id = some ("F7") ∧
    ¬ ("F7" : String) = "" ∧
    ((OneDriveClient.list_items_by_path sampleT ("D1") ("Docs")).2 =
        Except.ok (OneDriveClient.list_items sampleT ("D1") ("F7")).2 ∧
      (OneDriveClient.list_items_by_path sampleT ("D1") ("Docs")).1 =
        GraphRequest.getItemReq ("D1") ("root:/" ++ "Docs" ++ ":") ::
          (OneDriveClient.list_items sampleT ("D1") ("F7")).1) :=
  ⟨by decide, by decide, by decide,
    list_items_by_path_agrees_with_list_items sampleT ("D1") ("Docs") ("F7") docsFolderItem
      (by decide) (by decide) (by decide)⟩

/-- C7: when the resolution fetch returns an item whose identifier is
absent (`None`) or empty, `list_items_by_path` silently lists the children
of the sentinel `root` identifier. -/
theorem list_items_by_path_root_fallback (T : GraphTransport) (d p : String) (it : DriveItem)
    (h1 : T.getItem d ("root:/" ++ p ++ ":") = some it)
    (h2 : it.id = none ∨ it.id = some "") :
    (OneDriveClient.list_items_by_path T d p).2 =
      Except.ok (OneDriveClient.list_items T d ("root")).2 ∧
    (OneDriveClient.list_items_by_path T d p).1 =
      GraphRequest.getItemReq d ("root:/" ++ p ++ ":") ::
        (OneDriveClient.list_items T d ("root")).1 := by
  have hres : pyOrStr it.id ("root") = "root" := by
    cases h2 with
    | inl h =>
      rw [h]
      rfl
    | inr h =>
      rw [h]
      decide
  constructor <;> simp [OneDriveClient.list_items_by_path, h1, hres]

/-- Witness for C7 on the fixture transport: the folder at path `Weird`
resolves to a record with no identifier, and the caller receives the
children of the drive root. -/
theorem list_items_by_path_root_fallback_witness :
    sampleT.getItem ("D1") ("root:/" ++ "Weird" ++ ":") = some noIdFolderItem ∧
    noIdFolderItem.id = none ∧
    ((OneDriveClient.list_items_by_path sampleT ("D1") ("Weird")).2 =
        Except.ok (OneDriveClient.list_items sampleT ("D1") ("root")).2 ∧
      (OneDriveClient.list_items_by_path sampleT ("D1") ("Weird")).1 =
        GraphRequest.getItemReq ("D1") ("root:/" ++ "Weird" ++ ":") ::
          (OneDriveClient.list_items sampleT ("D1") ("root")).1) :=
  ⟨by decide, by decide,
    list_items_by_path_root_fallback sampleT ("D1") ("Weird") noIdFolderItem
      (by decide) (Or.inl (by decide))⟩

/-- C4: `get_site_drive_id` fails with not-found naming `hostname:path`
when the site lookup returns nothing, fails with not-found naming
`hostname:path` when the drive lookup for the resolved site returns
nothing, returns the drive identifier (defaulted to the empty string when
the record lacks one) when both lookups answer, and returns a value in no
other case. -/
theorem get_site_drive_id_spec (T : GraphTransport) (hname sp : String) :
    (T.getSite (hname ++ ":" ++ sp) = none →
      (OneDriveClient.get_site_drive_id T hname sp).2 =
        Except.error (Err.fileNotFound ("Site not found: " ++ hname ++ ":" ++ sp))) ∧
    (∀ site, T.getSite (hname ++ ":" ++ sp) = some site →
      T.getDriveOfSite (pyOrStr site.id ("")) = none →
      (OneDriveClient.get_site_drive_id T hname sp).2 =
        Except.error (Err.fileNotFound ("Default drive not found for site " ++ hname ++ ":" ++ sp))) ∧
    (∀ site drive, T.getSite (hname ++ ":" ++ sp) = some site →
      T.getDriveOfSite (pyOrStr site.id ("")) = some drive →
      (OneDriveClient.get_site_drive_id T hname sp).2 = Except.ok (pyOrStr drive.id (""))) ∧
    (∀ v, (OneDriveClient.get_site_drive_id T hname sp).2 = Except.ok v →
      ∃ site drive, T.getSite (hname ++ ":" ++ sp) = some site ∧
        T.getDriveOfSite (pyOrStr site.id ("")) = some drive ∧
        v = pyOrStr drive.id ("")) := by
  refine ⟨?_, ?_, ?_, ?_⟩
  · intro h
    simp [OneDriveClient.get_site_drive_id, h]
  · intro site h1 h2
    simp [OneDriveClient.get_site_drive_id, h1, h2]
  · intro site drive h1 h2
    simp [OneDriveClient.get_site_drive_id, h1, h2]
  · intro v hv
    cases h1 : T.getSite (hname ++ ":" ++ sp) with
    | none => simp [OneDriveClient.get_site_drive_id, h1] at hv
    | some site =>
      cases h2 : T.getDriveOfSite (pyOrStr site.id ("")) with
      | none => simp [OneDriveClient.get_site_drive_id, h1, h2] at hv
      | some drive =>
        simp [OneDriveClient.get_site_drive_id, h1, h2] at hv
        exact ⟨site, drive, rfl, h2, hv.symm⟩

/-- Witness for C4 on the fixture transport: missing site, missing drive,
and successful resolution, plus the converse for the successful value. -/
theorem get_site_drive_id_spec_witness :
    ((OneDriveClient.get_site_drive_id sampleT ("nohost") ("/s")).2 =
      Except.error (Err.fileNotFound ("Site not found: " ++ "nohost" ++ ":" ++ "/s"))) ∧
    ((OneDriveClient.get_site_drive_id sampleT ("h2") ("/sites/x")).2 =
      Except.error (Err.fileNotFound ("Default drive not found for site " ++ "h2" ++ ":" ++ "/sites/x"))) ∧
    ((OneDriveClient.get_site_drive_id sampleT ("contoso.sharepoint.com") ("/sites/team")).2 =
      Except.ok (pyOrStr (some ("DR1")) (""))) ∧
    (∃ site drive,
      sampleT.getSite ("contoso.sharepoint.com" ++ ":" ++ "/sites/team") = some site ∧
      sampleT.getDriveOfSite (pyOrStr site.id ("")) = some drive ∧
      ("DR1" : String) = pyOrStr drive.id ("")) :=
  ⟨(get_site_drive_id_spec sampleT ("nohost") ("/s")).1 (by decide),
   (get_site_drive_id_spec sampleT ("h2") ("/sites/x")).2.1 { id := some ("S2") }
     (by decide) (by decide),
   (get_site_drive_id_spec sampleT ("contoso.sharepoint.com") ("/sites/team")).2.2.1
     { id := some ("S1") } { id := some ("DR1") } (by decide) (by decide),
   (get_site_drive_id_spec sampleT ("contoso.sharepoint.com") ("/sites/team")).2.2.2
     ("DR1") (by rfl)⟩

/-- C6: download into an existing directory returns that directory joined
with the remote name and writes the content there; download to a non-
directory destination uses it verbatim, creates the whole missing parent
chain and writes the content; a missing content response raises not-found
naming the item, as does a missing item record when the remote name is
needed. -/
theorem download_file_spec (T : GraphTransport) (fs : FS) (d i : String) (dest : List String) :
    (∀ it content, fs.isDir dest = true → T.getItem d i = some it →
      T.getContent d i = some content →
      ∃ fs1, (OneDriveClient.download_file T fs d i dest).2 =
          Except.ok (dest ++ [(toDriveItemInfo it).name], fs1) ∧
        fs1.readFile (dest ++ [(toDriveItemInfo it).name]) = some content) ∧
    (∀ content, fs.isDir dest = false → T.getContent d i = some content →
      ∃ fs1, (OneDriveClient.download_file T fs d i dest).2 = Except.ok (dest, fs1) ∧
        fs1.readFile dest = some content ∧
        ∀ k, fs1.isDir (dest.dropLast.take k) = true) ∧
    (fs.isDir dest = false → T.getContent d i = none →
      (OneDriveClient.download_file T fs d i dest).2 =
        Except.error (Err.fileNotFound ("No content returned for item " ++ i))) ∧
    (∀ it, fs.isDir dest = true → T.getItem d i = some it → T.getContent d i = none →
      (OneDriveClient.download_file T fs d i dest).2 =
        Except.error (Err.fileNotFound ("No content returned for item " ++ i))) ∧
    (fs.isDir dest = true → T.getItem d i = none →
      (OneDriveClient.download_file T fs d i dest).2 =
        Except.error (Err.fileNotFound ("Item not found: " ++ i))) := by
  refine ⟨?_, ?_, ?_, ?_, ?_⟩
  · intro it content hdir hitem hcont
    refine ⟨(fs.mkdirParents (dest ++ [(toDriveItemInfo it).name]).dropLast).writeFile
        (dest ++ [(toDriveItemInfo it).name]) content, ?_, readFile_writeFile _ _ _⟩
    simp [OneDriveClient.download_file, OneDriveClient.get_item, hdir, hitem, hcont]
  · intro content hdir hcont
    refine ⟨(fs.mkdirParents dest.dropLast).writeFile dest content, ?_,
        readFile_writeFile _ _ _, fun k => ?_⟩
    · simp [OneDriveClient.download_file, hdir, hcont]
    · rw [isDir_writeFile]
      exact isDir_mkdirParents _ _ _
  · intro hdir hcont
    simp [OneDriveClient.download_file, hdir, hcont]
  · intro it hdir hitem hcont
    simp [OneDriveClient.download_file, OneDriveClient.get_item, hdir, hitem, hcont]
  · intro hdir hitem
    simp [OneDriveClient.download_file, OneDriveClient.get_item, hdir, hitem]

/-- Witness for C6 on the fixture transport and filesystem: all five
branches at concrete inputs. -/
theorem download_file_spec_witness :
    (∃ fs1, (OneDriveClient.download_file sampleT sampleFS ("D1") ("X")
          ([("tmp" : String), "out"])).2 =
        Except.ok ([("tmp" : String), "out"] ++ [(toDriveItemInfo reportItem).name], fs1) ∧
      fs1.readFile ([("tmp" : String), "out"] ++ [(toDriveItemInfo reportItem).name]) =
        some [104, 105]) ∧
    (∃ fs1, (OneDriveClient.download_file sampleT sampleFS ("D1") ("X")
          ([("tmp" : String), "newdir", "file.bin"])).2 =
        Except.ok ([("tmp" : String), "newdir", "file.bin"], fs1) ∧
      fs1.readFile ([("tmp" : String), "newdir", "file.bin"]) = some [104, 105] ∧
      ∀ k, fs1.isDir (([("tmp" : String), "newdir", "file.bin"]).dropLast.take k) = true) ∧
    ((OneDriveClient.download_file sampleT sampleFS ("D1") ("Y") ([("a.bin" : String)])).2 =
      Except.error (Err.fileNotFound ("No content returned for item " ++ "Y"))) ∧
    ((OneDriveClient.download_file sampleT sampleFS ("D1") ("Y") ([("tmp" : String), "out"])).2 =
      Except.error (Err.fileNotFound ("No content returned for item " ++ "Y"))) ∧
    ((OneDriveClient.download_file sampleT sampleFS ("D1") ("Z") ([("tmp" : String), "out"])).2 =
      Except.error (Err.fileNotFound ("Item not found: " ++ "Z"))) :=
  ⟨(download_file_spec sampleT sampleFS ("D1") ("X") ([("tmp" : String), "out"])).1
      reportItem [104, 105] (by decide) (by decide) (by decide),
   (download_file_spec sampleT sampleFS ("D1") ("X")
        ([("tmp" : String), "newdir", "file.bin"])).2.1
      [104, 105] (by decide) (by decide),
   (download_file_spec sampleT sampleFS ("D1") ("Y") ([("a.bin" : String)])).2.2.1
      (by decide) (by decide),
   (download_file_spec sampleT sampleFS ("D1") ("Y") ([("tmp" : String), "out"])).2.2.2.1
      reportItem (by decide) (by decide) (by decide),
   (download_file_spec sampleT sampleFS ("D1") ("Z") ([("tmp" : String), "out"])).2.2.2.2
      (by decide) (by decide)⟩

/-- The one request `upload_file` issues: a raw content PUT at the
bracketed parent-plus-name address. -/
theorem upload_file_requests (T : GraphTransport) (d pid fn : String) (c : List Nat) :
    (OneDriveClient.upload_file T d pid fn c).1 =
      [GraphRequest.putContentReq d (pid ++ ":/" ++ fn ++ ":") c] := by
  cases h : T.putContent d (pid ++ ":/" ++ fn ++ ":") c <;>
    simp [OneDriveClient.upload_file, h]

/-- The one request `upload_file_by_path` issues: a raw content PUT at the
root-anchored bracketed address. -/
theorem upload_file_by_path_requests (T : GraphTransport) (d rp : String) (c : List Nat) :
    (OneDriveClient.upload_file_by_path T d rp c).1 =
      [GraphRequest.putContentReq d ("root:/" ++ rp ++ ":") c] := by
  cases h : T.putContent d ("root:/" ++ rp ++ ":") c <;>
    simp [OneDriveClient.upload_file_by_path, h]

/-- The one request `create_folder` issues: a children POST carrying the
new-folder body. -/
theorem create_folder_requests (T : GraphTransport) (d pid fn : String) :
    (OneDriveClient.create_folder T d pid fn).1 =
      [GraphRequest.postChildrenReq d pid (newFolderBody fn)] := by
  cases h : T.postChildren d pid (newFolderBody fn) <;>
    simp [OneDriveClient.create_folder, h]

/-- C1 fails on the code: an upload is a bare content PUT carrying no
conflict-behavior instruction at all (the rename policy is attached only by
`create_folder`), so the fixed rename-on-conflict policy the claim asserts
for uploads is absent; per its own docstring `upload_file` will "Upload (or
replace)" an existing same-named item. -/
theorem upload_conflict_policy_counterexample :
    OneDriveClient.upload_file sampleT ("D1") ("root") ("a.txt") [104, 105] =
      ([GraphRequest.putContentReq ("D1") ("root" ++ ":/" ++ "a.txt" ++ ":") [104, 105]],
        Except.ok (toDriveItemInfo uploadedItem)) ∧
    ¬ (∀ r, r ∈ (OneDriveClient.upload_file sampleT ("D1") ("root") ("a.txt") [104, 105]).1 →
        requestConflictBehavior r = some ("rename")) := by
  constructor
  · rfl
  · intro h
    have hc := h (GraphRequest.putContentReq ("D1") ("root" ++ ":/" ++ "a.txt" ++ ":") [104, 105])
      (by rw [upload_file_requests]; exact List.mem_singleton.mpr rfl)
    simp [requestConflictBehavior] at hc

/-- C1 amended: only `create_folder` fixes the conflict policy to rename;
`upload_file` and `upload_file_by_path` issue a bare content PUT carrying
no conflict policy (so an existing same-named item is handled by the remote
default, documented in the source as replace); an upload never raises a
conflict error — it returns the metadata the service sends back and raises
a runtime error exactly when no metadata comes back. -/
theorem upload_conflict_policy_amended (T : GraphTransport)
    (d pid fn rp : String) (c : List Nat) :
    (∀ r, r ∈ (OneDriveClient.upload_file T d pid fn c).1 →
      requestConflictBehavior r = none) ∧
    (∀ r, r ∈ (OneDriveClient.upload_file_by_path T d rp c).1 →
      requestConflictBehavior r = none) ∧
    (∀ r, r ∈ (OneDriveClient.create_folder T d pid fn).1 →
      requestConflictBehavior r = some ("rename")) ∧
    (∀ it, T.putContent d (pid ++ ":/" ++ fn ++ ":") c = some it →
      (OneDriveClient.upload_file T d pid fn c).2 = Except.ok (toDriveItemInfo it)) ∧
    (T.putContent d (pid ++ ":/" ++ fn ++ ":") c = none →
      (OneDriveClient.upload_file T d pid fn c).2 =
        Except.error (Err.runtimeError ("Upload returned no metadata for " ++ fn))) ∧
    (∀ it, T.putContent d ("root:/" ++ rp ++ ":") c = some it →
      (OneDriveClient.upload_file_by_path T d rp c).2 = Except.ok (toDriveItemInfo it)) ∧
    (T.putContent d ("root:/" ++ rp ++ ":") c = none →
      (OneDriveClient.upload_file_by_path T d rp c).2 =
        Except.error (Err.runtimeError ("Upload returned no metadata for " ++ rp))) := by
  refine ⟨?_, ?_, ?_, ?_, ?_, ?_, ?_⟩
  · intro r hr
    rw [upload_file_requests] at hr
    rw [List.mem_singleton.mp hr]
    rfl
  · intro r hr
    rw [upload_file_by_path_requests] at hr
    rw [List.mem_singleton.mp hr]
    rfl
  · intro r hr
    rw [create_folder_requests] at hr
    rw [List.mem_singleton.mp hr]
    rfl
  · intro it h
    simp [OneDriveClient.upload_file, h]
  · intro h
    simp [OneDriveClient.upload_file, h]
  · intro it h
    simp [OneDriveClient.upload_file_by_path, h]
  · intro h
    simp [OneDriveClient.upload_file_by_path, h]

/-- Witness for the amended C1 on the fixture transport: the three request
shapes at concrete inputs, a successful upload, and an upload the service
answered with no metadata. -/
theorem upload_conflict_policy_amended_witness :
    requestConflictBehavior
      (GraphRequest.putContentReq ("D1") ("root" ++ ":/" ++ "a.txt" ++ ":") [104, 105]) = none ∧
    requestConflictBehavior
      (GraphRequest.putContentReq ("D1") ("root:/" ++ "Docs/b.txt" ++ ":") [104, 105]) = none ∧
    requestConflictBehavior
      (GraphRequest.postChildrenReq ("D1") ("root") (newFolderBody ("NewF"))) = some ("rename") ∧
    (OneDriveClient.upload_file sampleT ("D1") ("root") ("a.txt") [104, 105]).2 =
      Except.ok (toDriveItemInfo uploadedItem) ∧
    (OneDriveClient.upload_file sampleT ("D2") ("root") ("a.txt") [104, 105]).2 =
      Except.error (Err.runtimeError ("Upload returned no metadata for " ++ "a.txt")) ∧
    (OneDriveClient.upload_file_by_path sampleT ("D1") ("Docs/b.txt") [104, 105]).2 =
      Except.ok (toDriveItemInfo uploadedItem) ∧
    (OneDriveClient.upload_file_by_path sampleT ("D2") ("Docs/b.txt") [104, 105]).2 =
      Except.error (Err.runtimeError ("Upload returned no metadata for " ++ "Docs/b.txt")) :=
  ⟨(upload_conflict_policy_amended sampleT ("D1") ("root") ("a.txt") ("Docs/b.txt") [104, 105]).1
      _ (by rw [upload_file_requests]; exact List.mem_singleton.mpr rfl),
   (upload_conflict_policy_amended sampleT ("D1") ("root") ("a.txt") ("Docs/b.txt") [104, 105]).2.1
      _ (by rw [upload_file_by_path_requests]; exact List.mem_singleton.mpr rfl),
   (upload_conflict_policy_amended sampleT ("D1") ("root") ("NewF") ("x") [104, 105]).2.2.1
      _ (by rw [create_folder_requests]; exact List.mem_singleton.mpr rfl),
   (upload_conflict_policy_amended sampleT ("D1") ("root") ("a.txt") ("x") [104, 105]).2.2.2.1
      uploadedItem (by decide),
   (upload_conflict_policy_amended sampleT ("D2") ("root") ("a.txt") ("x") [104, 105]).2.2.2.2.1
      (by decide),
   (upload_conflict_policy_amended sampleT ("D1") ("root") ("a.txt") ("Docs/b.txt")
      [104, 105]).2.2.2.2.2.1 uploadedItem (by decide),
   (upload_conflict_policy_amended sampleT ("D2") ("root") ("a.txt") ("Docs/b.txt")
      [104, 105]).2.2.2.2.2.2 (by decide)⟩

end OneDrive
